import Mathlib

/-!
Shallow embedding of the `PhysicsEngine` class of ldotn/simple-physx
(PhysicsEngine.h / PhysicsEngine.cpp and the sample main).

Modelling conventions:
* `size_t` is modelled as `Nat`; the C++ comparison `x < 0` on an unsigned
  value is the `Nat` comparison, which is identically false, and `(size_t)-1`
  is `SIZE_MAX = 2 ^ 64 - 1`.
* `float` values are modelled as `ℚ`; every claim settled here is robust to
  that choice (the divergences found are unit factors and integer
  truncations, not rounding effects).
* Each fallible PhysX SDK call is modelled by a Boolean field of an
  environment record giving that call's outcome (non-null / null).
* An out-of-range `std::vector` element access (undefined behavior in the
  source) makes the modelled operation return `none`.
* The PhysX Visual Debugger block is compiled only under `_DEBUG`; the model
  follows the release build, where it is absent.
-/

namespace SimplePhysx

/-- `(size_t)(-1)`, the failure sentinel returned by the creation functions,
assuming the usual 64-bit `size_t`. -/
def SIZE_MAX : Nat := 2 ^ 64 - 1

/-- The mutable state the resource-table claims talk about: the two
append-only tables (`TriangleMeshes`, `Characters`, entries modelled as
opaque `Nat` references) and the number of actors added to the scene. -/
structure EngineState where
  TriangleMeshes : List Nat
  Characters : List Nat
  SceneActors : Nat
  deriving Repr, DecidableEq

/-- Outcome of each SDK construction call performed by `Initialize`
(non-null result = `true`).  The source also creates a CPU dispatcher whose
result it never tests; it has no control-flow effect and is omitted. -/
structure InitEnv where
  foundationOk : Bool
  physicsOk : Bool
  cookerOk : Bool
  sceneOk : Bool
  materialOk : Bool
  managerOk : Bool
  deriving Repr, DecidableEq

/-- `PhysicsEngine::Initialize` (release build), returning the `bool` result
and the list of diagnostics written to `cout`.  The source tests only the
foundation, physics and cooker results; `createScene`,
`PxCreateControllerManager` and `createMaterial` results are stored without
any check, so the fields `sceneOk`, `materialOk` and `managerOk` are never
consulted, exactly as in the source. -/
def Initialize (_NumThreads : Nat) (_Gravity : ℚ × ℚ × ℚ) (env : InitEnv) :
    Bool × List String :=
  if env.foundationOk = false then
    (false, ["Failed to create the PhysX foundation instance"])
  else if env.physicsOk = false then
    (false, ["Failed to create the PhysX physics instance"])
  else if env.cookerOk = false then
    (false, ["Failed to create the PhysX cooker instance"])
  else
    (true, [])

/-- Outcome of `PxCreateStatic` inside `CreateStaticActor`. -/
structure ActorEnv where
  createStaticOk : Bool
  deriving Repr, DecidableEq

/-- `PhysicsEngine::CreateStaticActor`.  The bounds check is transcribed
verbatim from the source: `MeshID < 0 && MeshID >= TriangleMeshes.size()`,
a conjunction.  After the check the source reads `TriangleMeshes[MeshID]`;
an out-of-range read is undefined behavior, modelled as `none`.  On success
the actor is added to the scene. -/
def CreateStaticActor (env : ActorEnv) (s : EngineState) (MeshID : Nat) :
    Option (Bool × EngineState) :=
  if MeshID < 0 ∧ s.TriangleMeshes.length ≤ MeshID then
    some (false, s)
  else
    match s.TriangleMeshes[MeshID]? with
    | none => none
    | some _mesh =>
      if env.createStaticOk then
        some (true, { s with SceneActors := s.SceneActors + 1 })
      else
        some (false, s)

/-- `PhysicsEngine::GetCharacter`.  The bounds check is transcribed verbatim:
`ID < 0 && ID >= Characters.size()`, a conjunction; when it fires the source
returns `nullptr` (modelled `some none`).  Otherwise the source reads
`Characters[ID]`; an out-of-range read is undefined behavior, modelled as
`none`. -/
def GetCharacter (s : EngineState) (ID : Nat) : Option (Option Nat) :=
  if ID < 0 ∧ s.Characters.length ≤ ID then
    some none
  else
    (s.Characters[ID]?).map some

/-- The `PxCapsuleControllerDesc` fields set by `CreateCharacterController`. -/
structure PxCapsuleControllerDesc where
  height : ℚ
  radius : ℚ
  position : ℚ × ℚ × ℚ
  contactOffset : ℚ
  stepOffset : ℚ
  deriving Repr, DecidableEq

/-- The descriptor exactly as `CreateCharacterController` fills it in:
`contactOffset = Radius + Radius * 0.1`, `stepOffset = Height * 0.25`. -/
def buildControllerDesc (StartPosition : ℚ × ℚ × ℚ) (Height Radius : ℚ) :
    PxCapsuleControllerDesc :=
  { height := Height
    radius := Radius
    position := StartPosition
    contactOffset := Radius + Radius * (1 / 10)
    stepOffset := Height * (1 / 4) }

/-- `PhysicsEngine::CreateCharacterController`: builds the descriptor, calls
`CharacterManager->createController` (outcome `createControllerOk`, the new
opaque reference `newController`); on a null result returns `(size_t)-1`
without touching the table, otherwise pushes the controller and returns
`Characters.size() - 1`. -/
def CreateCharacterController (StartPosition : ℚ × ℚ × ℚ) (Height Radius : ℚ)
    (createControllerOk : Bool) (chars : List Nat) (newController : Nat) :
    Nat × List Nat :=
  let _desc := buildControllerDesc StartPosition Height Radius
  if createControllerOk = false then
    (SIZE_MAX, chars)
  else
    ((chars ++ [newController]).length - 1, chars ++ [newController])

/-- Outcomes of the two cooker calls inside `CreatePhysicsTriangleMesh`:
`Cooker->createTriangleMesh` and `Cooker->cookTriangleMesh`. -/
structure MeshEnv where
  createTriangleMeshOk : Bool
  cookTriangleMeshOk : Bool
  deriving Repr, DecidableEq

/-- Result of `CreatePhysicsTriangleMesh`: the returned `size_t`, the mesh
table afterwards, and how many cooker calls were performed (to state that a
failed validation never reaches the cooker). -/
structure MeshResult where
  result : Nat
  meshes : List Nat
  cookerCalls : Nat
  deriving Repr, DecidableEq

/-- `PhysicsEngine::CreatePhysicsTriangleMesh` (header template).  Validates
`IndexList.size() % 3 == 0` before any cooker call; then calls
`createTriangleMesh` and `cookTriangleMesh`, returning `(size_t)-1` on each
failure; on success pushes the cooked mesh and returns
`TriangleMeshes.size() - 1`.  The vertex buffer only feeds the descriptor and
has no control-flow effect. -/
def CreatePhysicsTriangleMesh (env : MeshEnv) (meshes : List Nat)
    (_VertexList : List (ℚ × ℚ × ℚ)) (IndexList : List Nat) (newMesh : Nat) :
    MeshResult :=
  if IndexList.length % 3 ≠ 0 then
    { result := SIZE_MAX, meshes := meshes, cookerCalls := 0 }
  else if env.createTriangleMeshOk = false then
    { result := SIZE_MAX, meshes := meshes, cookerCalls := 1 }
  else if env.cookTriangleMeshOk = false then
    { result := SIZE_MAX, meshes := meshes, cookerCalls := 2 }
  else
    { result := (meshes ++ [newMesh]).length - 1
      meshes := meshes ++ [newMesh]
      cookerCalls := 2 }

/-- One call of `PhysicsEngine::SimulateFixedFrequency`, with the wall clock
made explicit: `startTime` is the reference timestamp and `now` the current
time, both in seconds.  The source computes
`ElapsedTime = chrono::duration<float, std::deca>(now - start).count()`,
a count in decaseconds (1 deca-unit = 10 s), hence the division by 10.
Returns the value passed to the callback and to `Simulate` when a step is
taken (else `none`), and the new reference timestamp. -/
def SimulateFixedFrequency (Frequency : ℚ) (startTime now : ℚ) :
    Option ℚ × ℚ :=
  let step_size := 1 / Frequency
  let ElapsedTime := (now - startTime) / 10
  if step_size ≤ ElapsedTime then
    (some ElapsedTime, now)
  else
    (none, startTime)

/-- Truncation of a rational toward zero, the C++ `float` → integer
conversion. -/
def ratTrunc (q : ℚ) : Int :=
  if q < 0 then ⌈q⌉ else ⌊q⌋

/-- The C++ conversion of a `float` to the `PxI16` field
`PxHeightFieldSample::height`: truncation toward zero, undefined behavior
(`none`) when the truncated value does not fit in 16 bits. -/
def i16OfRat (q : ℚ) : Option Int :=
  let t := ratTrunc q
  if -32768 ≤ t ∧ t ≤ 32767 then some t else none

/-- The body of the double loop of `CreateTerrain`, run over the listed
`(y, x)` pairs.  Transcribed from the source:
`out_idx = y + x * nbRows` with `nbRows = SizeY`, and
`in_idx = x * sizeof(float) + y * SizeX` with `sizeof(float) = 4`;
`px_data[out_idx].height = (MaxZ - MinZ) * Heightmap[in_idx] + MinZ`.
An out-of-range read of `Heightmap` or write of `px_data` is undefined
behavior, modelled as `none`. -/
def terrainPass (SizeX SizeY : Nat) (MinZ MaxZ : ℚ) (Heightmap : List ℚ) :
    List (Nat × Nat) → List Int → Option (List Int)
  | [], px_data => some px_data
  | (y, x) :: rest, px_data =>
    let out_idx := y + x * SizeY
    let in_idx := x * 4 + y * SizeX
    match Heightmap[in_idx]? with
    | none => none
    | some h =>
      match i16OfRat ((MaxZ - MinZ) * h + MinZ) with
      | none => none
      | some v =>
        if out_idx < px_data.length then
          terrainPass SizeX SizeY MinZ MaxZ Heightmap rest (px_data.set out_idx v)
        else
          none

/-- Iteration order of the double loop: `y` outer over `[0, SizeY)`, `x`
inner over `[0, SizeX)`. -/
def terrainIndexPairs (SizeX SizeY : Nat) : List (Nat × Nat) :=
  (List.range SizeY).flatMap fun y => (List.range SizeX).map fun x => (y, x)

/-- The sample buffer built by `CreateTerrain`: `px_data` starts as
`Heightmap.size()` value-initialized (zero) samples and the double loop
fills it. -/
def CreateTerrainSamples (SizeX SizeY : Nat) (MinZ MaxZ : ℚ)
    (Heightmap : List ℚ) : Option (List Int) :=
  terrainPass SizeX SizeY MinZ MaxZ Heightmap (terrainIndexPairs SizeX SizeY)
    (List.replicate Heightmap.length 0)

/-- Outcomes of the SDK calls inside `CreateTerrain`:
`Cooker->createHeightField` and `PxCreateStatic`. -/
structure TerrainEnv where
  cookHeightFieldOk : Bool
  createStaticOk : Bool
  deriving Repr, DecidableEq

/-- `PhysicsEngine::CreateTerrain`.  After the sample conversion the source
stores the `createHeightField` result in `hf_ptr` WITHOUT testing it (so
`cookHeightFieldOk` is never consulted, exactly as in the source), builds the
geometry from it, and only tests `PxCreateStatic`: a null actor returns
`false`; otherwise the actor is added to the scene and `true` returned. -/
def CreateTerrain (env : TerrainEnv) (s : EngineState)
    (SizeX SizeY : Nat) (MinZ MaxZ : ℚ) (Heightmap : List ℚ) :
    Option (Bool × EngineState) :=
  match CreateTerrainSamples SizeX SizeY MinZ MaxZ Heightmap with
  | none => none
  | some _px_data =>
    if env.createStaticOk then
      some (true, { s with SceneActors := s.SceneActors + 1 })
    else
      some (false, s)

/-- The public operations that can run between a creation and a later lookup.
`simulate` covers `Simulate`, `SimulateFixedFrequency` and `MoveCharacter`,
none of which touches a resource table in the source. -/
inductive EngineOp where
  | createMesh (env : MeshEnv) (VertexList : List (ℚ × ℚ × ℚ))
      (IndexList : List Nat) (newMesh : Nat)
  | createController (StartPosition : ℚ × ℚ × ℚ) (Height Radius : ℚ)
      (ok : Bool) (newController : Nat)
  | createStaticActor (env : ActorEnv) (MeshID : Nat)
  | createTerrain (env : TerrainEnv) (SizeX SizeY : Nat) (MinZ MaxZ : ℚ)
      (Heightmap : List ℚ)
  | simulate (ElapsedTimeSeconds : ℚ)

/-- Effect of one operation on the engine state.  No code path of any source
operation removes or reorders a table entry; the `none` (undefined-behavior)
branches of `CreateStaticActor` / `CreateTerrain` contain no table mutation
either, so they leave the state as is. -/
def stepOp (s : EngineState) : EngineOp → EngineState
  | .createMesh env vs idx nm =>
    { s with TriangleMeshes := (CreatePhysicsTriangleMesh env s.TriangleMeshes vs idx nm).meshes }
  | .createController p h r ok c =>
    { s with Characters := (CreateCharacterController p h r ok s.Characters c).2 }
  | .createStaticActor env id =>
    match CreateStaticActor env s id with
    | some (_, s2) => s2
    | none => s
  | .createTerrain env sx sy mn mx hm =>
    match CreateTerrain env s sx sy mn mx hm with
    | some (_, s2) => s2
    | none => s
  | .simulate _ => s

/-- Run a sequence of operations. -/
def runOps : EngineState → List EngineOp → EngineState
  | s, [] => s
  | s, op :: rest => runOps (stepOp s op) rest

/-! ## Helper lemmas -/

/-- `CreatePhysicsTriangleMesh` either leaves the mesh table unchanged or
appends exactly the new mesh. -/
theorem CreatePhysicsTriangleMesh_meshes (env : MeshEnv) (meshes : List Nat)
    (vs : List (ℚ × ℚ × ℚ)) (idx : List Nat) (nm : Nat) :
    (CreatePhysicsTriangleMesh env meshes vs idx nm).meshes = meshes ∨
    (CreatePhysicsTriangleMesh env meshes vs idx nm).meshes = meshes ++ [nm] := by
  simp only [CreatePhysicsTriangleMesh]
  split
  · exact Or.inl rfl
  · split
    · exact Or.inl rfl
    · split
      · exact Or.inl rfl
      · exact Or.inr rfl

/-- `CreateCharacterController` either leaves the controller table unchanged
or appends exactly the new controller. -/
theorem CreateCharacterController_chars (p : ℚ × ℚ × ℚ) (h r : ℚ) (ok : Bool)
    (chars : List Nat) (c : Nat) :
    (CreateCharacterController p h r ok chars c).2 = chars ∨
    (CreateCharacterController p h r ok chars c).2 = chars ++ [c] := by
  simp only [CreateCharacterController]
  split
  · exact Or.inl rfl
  · exact Or.inr rfl

/-- One engine operation only ever appends to the two resource tables. -/
theorem stepOp_tables_extend (s : EngineState) (op : EngineOp) :
    ∃ tm tc, (stepOp s op).TriangleMeshes = s.TriangleMeshes ++ tm ∧
      (stepOp s op).Characters = s.Characters ++ tc := by
  cases op with
  | createMesh env vs idx nm =>
    rcases CreatePhysicsTriangleMesh_meshes env s.TriangleMeshes vs idx nm with h | h
    · exact ⟨[], [], by simp [stepOp, h], by simp [stepOp]⟩
    · exact ⟨[nm], [], by simp [stepOp, h], by simp [stepOp]⟩
  | createController p h r ok c =>
    rcases CreateCharacterController_chars p h r ok s.Characters c with h2 | h2
    · exact ⟨[], [], by simp [stepOp], by simp [stepOp, h2]⟩
    · exact ⟨[], [c], by simp [stepOp], by simp [stepOp, h2]⟩
  | createStaticActor env id =>
    refine ⟨[], [], ?_, ?_⟩ <;>
    · simp only [stepOp, CreateStaticActor]
      split
      · next fst s2 heq =>
          split at heq
          · rw [Option.some_inj] at heq
            have h2 : _ = s2 := congrArg Prod.snd heq
            rw [← h2]
            simp
          · split at heq
            · exact Option.noConfusion heq
            · split at heq <;>
              · rw [Option.some_inj] at heq
                have h2 : _ = s2 := congrArg Prod.snd heq
                rw [← h2]
                simp
      · simp
  | createTerrain env sx sy mn mx hm =>
    refine ⟨[], [], ?_, ?_⟩ <;>
    · simp only [stepOp, CreateTerrain]
      split
      · next fst s2 heq =>
          split at heq
          · exact Option.noConfusion heq
          · split at heq <;>
            · rw [Option.some_inj] at heq
              have h2 : _ = s2 := congrArg Prod.snd heq
              rw [← h2]
              simp
      · simp
  | simulate dt => exact ⟨[], [], by simp [stepOp], by simp [stepOp]⟩

/-- Any operation sequence only ever appends to the `Characters` table. -/
theorem runOps_characters_extend (ops : List EngineOp) (s : EngineState) :
    ∃ tc, (runOps s ops).Characters = s.Characters ++ tc := by
  induction ops generalizing s with
  | nil => exact ⟨[], by simp [runOps]⟩
  | cons op rest ih =>
    obtain ⟨tm, tc1, _, h1⟩ := stepOp_tables_extend s op
    obtain ⟨tc2, h2⟩ := ih (stepOp s op)
    exact ⟨tc1 ++ tc2, by simp [runOps, h2, h1]⟩

/-! ## Claims -/

/-- C1: the claim says that for every `MeshID ≥ TriangleMeshes.size()`,
`CreateStaticActor` returns `false` and creates nothing.  In the source the
guard is the conjunction `MeshID < 0 && MeshID >= TriangleMeshes.size()`,
identically false on the unsigned handle, so the out-of-range id 0 on an
empty mesh table is NOT rejected: the call reaches the out-of-range
`TriangleMeshes[MeshID]` read (undefined behavior, `none`) instead of
returning `some (false, s)` as the claim requires. -/
theorem c1_static_actor_oob_not_rejected :
    CreateStaticActor ⟨true⟩ ⟨[], [], 0⟩ 0 = none ∧
    CreateStaticActor ⟨true⟩ ⟨[], [], 0⟩ 0 ≠ some (false, ⟨[], [], 0⟩) := by
  constructor
  · rfl
  · decide

/-- C2: the claim says the scheduler measures elapsed wall-clock time in
seconds and steps as soon as it is `≥ 1/f`.  The source builds the duration
with period `std::deca`, so `ElapsedTime` is a count of 10-second units:
with `Frequency = 1` and a full second elapsed (`startTime = 0`, `now = 1`,
so `1 ≥ 1/1` and the claim requires a step reporting `1`), the source
computes `ElapsedTime = 1/10 < 1` and performs no step and no callback. -/
theorem c2_fixed_frequency_deca_defect :
    SimulateFixedFrequency 1 0 1 = (none, 0) ∧ (1 / (1 : ℚ)) ≤ (1 : ℚ) - 0 := by
  constructor
  · simp only [SimulateFixedFrequency]
    norm_num
  · norm_num

/-- C3: the claim says that for a constant height-map of value `v` every
produced sample equals `(MaxZ-MinZ)*v+MinZ`.  The source computes
`in_idx = x * sizeof(float) + y * SizeX`, so already for `SizeX = 2`,
`SizeY = 1` the constant map `[1/2, 1/2]` is read at index 4, out of range
(undefined behavior, `none`).  Moreover the sample field is a 16-bit
integer: even the in-range case `SizeX = SizeY = 1` with `MinZ = 0`,
`MaxZ = 1`, `v = 1/2` stores the truncation 0, and `(1-0)*(1/2)+0 ≠ 0`. -/
theorem c3_terrain_constant_heightmap_defect :
    CreateTerrainSamples 2 1 0 1 [1/2, 1/2] = none ∧
    CreateTerrainSamples 1 1 0 1 [1/2] = some [0] ∧
    ((1 : ℚ) - 0) * (1/2) + 0 ≠ ((0 : Int) : ℚ) := by
  have hi16 : i16OfRat ((1 : ℚ) / 2) = some 0 := by
    simp only [i16OfRat, ratTrunc]
    norm_num
  refine ⟨?_, ?_, by norm_num⟩
  · have hpairs : terrainIndexPairs 2 1 = [(0, 0), (0, 1)] := rfl
    simp only [CreateTerrainSamples, hpairs, terrainPass]
    norm_num [hi16]
  · have hpairs : terrainIndexPairs 1 1 = [(0, 0)] := rfl
    simp only [CreateTerrainSamples, hpairs, terrainPass]
    norm_num [hi16]

/-- C4 counterexample: the claim says `Initialize` returns `false` whenever
any of the six SDK construction calls fails.  With foundation, physics and
cooker succeeding but scene (and material and manager) creation failing, the
source never tests those results and returns `true`. -/
theorem c4_initialize_scene_failure_ignored :
    (Initialize 2 (0, -981/100, 0) ⟨true, true, true, false, false, false⟩).1
      = true ∧
    (⟨true, true, true, false, false, false⟩ : InitEnv).sceneOk = false := by
  exact ⟨rfl, rfl⟩

/-- C4 amended: `Initialize` returns `false` (with a diagnostic logged)
exactly when foundation, physics-context or cooker construction fails; the
scene, default-material and controller-manager results are never tested, so
it returns `true` (and logs nothing) whenever the first three succeed,
regardless of the remaining three outcomes. -/
theorem c4_initialize_checks_first_three (n : Nat) (g : ℚ × ℚ × ℚ)
    (env : InitEnv) :
    (Initialize n g env).1 = (env.foundationOk && env.physicsOk && env.cookerOk) ∧
    (Initialize n g env).2.isEmpty = (Initialize n g env).1 := by
  obtain ⟨f, p, c, sc, m, mg⟩ := env
  cases f <;> cases p <;> cases c <;> simp [Initialize]

/-- C5: the claim says `GetCharacter` rejects an out-of-range `ID` with the
not-found signal (`nullptr`, modelled `some none`).  In the source the guard
is the conjunction `ID < 0 && ID >= Characters.size()`, identically false on
the unsigned handle, so the out-of-range id 0 on an empty controller table
is NOT rejected: the call reaches the out-of-range `Characters[ID]` read
(undefined behavior, `none`) instead of returning `nullptr`. -/
theorem c5_get_character_oob_not_rejected :
    GetCharacter ⟨[], [], 0⟩ 0 = none ∧
    GetCharacter ⟨[], [], 0⟩ 0 ≠ some none := by
  constructor
  · rfl
  · decide

/-- C6: for every index list whose length is not a multiple of 3,
`CreatePhysicsTriangleMesh` returns the failure sentinel `(size_t)-1`
without invoking the cooker at all and leaves the mesh table unchanged. -/
theorem c6_bad_index_count_rejected_before_cooker (env : MeshEnv)
    (meshes : List Nat) (VertexList : List (ℚ × ℚ × ℚ)) (IndexList : List Nat)
    (newMesh : Nat) (hlen : IndexList.length % 3 ≠ 0) :
    CreatePhysicsTriangleMesh env meshes VertexList IndexList newMesh
      = { result := SIZE_MAX, meshes := meshes, cookerCalls := 0 } := by
  simp [CreatePhysicsTriangleMesh, hlen]

/-- Witness for C6 at the concrete index list `[0]` (length 1). -/
theorem c6_bad_index_count_witness :
    ([0] : List Nat).length % 3 ≠ 0 ∧
    CreatePhysicsTriangleMesh ⟨true, true⟩ [5] [] [0] 3
      = { result := SIZE_MAX, meshes := [5], cookerCalls := 0 } :=
  ⟨by decide,
   c6_bad_index_count_rejected_before_cooker ⟨true, true⟩ [5] [] [0] 3 (by decide)⟩

/-- C7: a handle returned by a successful `CreateCharacterController` (the
SDK call succeeded, outcome `true`) yields that same controller from
`GetCharacter` after any further sequence of engine operations: the tables
are append-only and entries are never removed or reordered. -/
theorem c7_character_handle_stable (s : EngineState) (p : ℚ × ℚ × ℚ)
    (Height Radius : ℚ) (c : Nat) (ops : List EngineOp) :
    GetCharacter
      (runOps
        { s with Characters :=
            (CreateCharacterController p Height Radius true s.Characters c).2 }
        ops)
      (CreateCharacterController p Height Radius true s.Characters c).1
      = some (some c) := by
  obtain ⟨tc, htc⟩ := runOps_characters_extend ops
    { s with Characters :=
        (CreateCharacterController p Height Radius true s.Characters c).2 }
  simp only [CreateCharacterController, Bool.true_eq_false, if_false] at htc ⊢
  simp only [GetCharacter, htc]
  have hguard : ¬((s.Characters ++ [c]).length - 1 < 0 ∧
      (s.Characters ++ [c] ++ tc).length ≤ (s.Characters ++ [c]).length - 1) :=
    fun h => Nat.not_lt_zero _ h.1
  rw [if_neg hguard]
  have hidx : (s.Characters ++ [c]).length - 1 = s.Characters.length := by simp
  rw [hidx, List.append_assoc, List.getElem?_append_right (Nat.le_refl _)]
  simp

/-- C8 counterexample: the claim says `CreateTerrain` returns `false`
whenever height-field cooking fails.  The source never tests the
`createHeightField` result: with cooking failing but `PxCreateStatic`
succeeding, the call adds the actor to the scene and returns `true`. -/
theorem c8_terrain_cooking_failure_ignored :
    (⟨false, true⟩ : TerrainEnv).cookHeightFieldOk = false ∧
    CreateTerrain ⟨false, true⟩ ⟨[], [], 0⟩ 1 1 0 0 [0]
      = some (true, ⟨[], [], 1⟩) := by
  refine ⟨rfl, ?_⟩
  have hi16 : i16OfRat (0 : ℚ) = some 0 := by
    simp only [i16OfRat, ratTrunc]
    norm_num
  have hsamp : CreateTerrainSamples 1 1 0 0 [0] = some [0] := by
    have hpairs : terrainIndexPairs 1 1 = [(0, 0)] := rfl
    simp only [CreateTerrainSamples, hpairs, terrainPass]
    norm_num [hi16]
  simp only [CreateTerrain, hsamp]
  rfl

/-- C8 amended: `CreateTerrain` returns `false` exactly when static-actor
creation fails, and then the state is unchanged (no actor added); the
height-field cooking outcome is never tested, so the result is invariant
under it. -/
theorem c8_terrain_checks_only_actor_creation (cook cook2 actorOk : Bool)
    (s : EngineState) (SizeX SizeY : Nat) (MinZ MaxZ : ℚ) (hm : List ℚ) :
    CreateTerrain ⟨cook, actorOk⟩ s SizeX SizeY MinZ MaxZ hm
      = CreateTerrain ⟨cook2, actorOk⟩ s SizeX SizeY MinZ MaxZ hm ∧
    CreateTerrain ⟨cook, false⟩ s SizeX SizeY MinZ MaxZ hm
      = (CreateTerrainSamples SizeX SizeY MinZ MaxZ hm).map (fun _ => (false, s)) := by
  unfold CreateTerrain
  cases CreateTerrainSamples SizeX SizeY MinZ MaxZ hm <;> simp

/-- C9: the capsule-controller descriptor built by
`CreateCharacterController` has `contactOffset = Radius * 1.1`
(the source writes it `Radius + Radius * 0.1`) and
`stepOffset = Height * 0.25`. -/
theorem c9_controller_descriptor_offsets (p : ℚ × ℚ × ℚ) (Height Radius : ℚ) :
    (buildControllerDesc p Height Radius).contactOffset = Radius * 1.1 ∧
    (buildControllerDesc p Height Radius).stepOffset = Height * 0.25 := by
  constructor <;>
  · simp only [buildControllerDesc]
    norm_num
    try ring

/-- C10: every run of `CreatePhysicsTriangleMesh` and of
`CreateCharacterController` either fails with the sentinel `(size_t)-1 =
SIZE_MAX` and leaves its table unchanged, or succeeds with the handle equal
to the old table size, appending exactly the new entry — and, as long as the
table is smaller than `SIZE_MAX` (guaranteed for a table of pointers),
a successful handle is never equal to the failure sentinel. -/
theorem c10_failure_atomic_sentinel_disjoint (env : MeshEnv)
    (meshes : List Nat) (vs : List (ℚ × ℚ × ℚ)) (idx : List Nat) (nm : Nat)
    (p : ℚ × ℚ × ℚ) (Height Radius : ℚ) (ok : Bool) (chars : List Nat) (c : Nat)
    (hm : meshes.length < SIZE_MAX) (hc : chars.length < SIZE_MAX) :
    ((CreatePhysicsTriangleMesh env meshes vs idx nm).result = SIZE_MAX ∧
       (CreatePhysicsTriangleMesh env meshes vs idx nm).meshes = meshes ∨
     (CreatePhysicsTriangleMesh env meshes vs idx nm).result = meshes.length ∧
       (CreatePhysicsTriangleMesh env meshes vs idx nm).result ≠ SIZE_MAX ∧
       (CreatePhysicsTriangleMesh env meshes vs idx nm).meshes = meshes ++ [nm]) ∧
    ((CreateCharacterController p Height Radius ok chars c).1 = SIZE_MAX ∧
       (CreateCharacterController p Height Radius ok chars c).2 = chars ∨
     (CreateCharacterController p Height Radius ok chars c).1 = chars.length ∧
       (CreateCharacterController p Height Radius ok chars c).1 ≠ SIZE_MAX ∧
       (CreateCharacterController p Height Radius ok chars c).2 = chars ++ [c]) := by
  constructor
  · simp only [CreatePhysicsTriangleMesh]
    split
    · exact Or.inl ⟨rfl, rfl⟩
    · split
      · exact Or.inl ⟨rfl, rfl⟩
      · split
        · exact Or.inl ⟨rfl, rfl⟩
        · refine Or.inr ⟨by simp, ?_, rfl⟩
          simp only [List.length_append, List.length_cons, List.length_nil]
          omega
  · simp only [CreateCharacterController]
    split
    · exact Or.inl ⟨rfl, rfl⟩
    · refine Or.inr ⟨by simp, ?_, rfl⟩
      simp only [List.length_append, List.length_cons, List.length_nil]
      omega

/-- Witness for C10 at concrete inputs: a successful mesh creation on an
empty table and a successful controller creation on the one-entry table
`[7]`. -/
theorem c10_witness :
    ((CreatePhysicsTriangleMesh ⟨true, true⟩ [] [] [0, 1, 2] 4).result = SIZE_MAX ∧
       (CreatePhysicsTriangleMesh ⟨true, true⟩ [] [] [0, 1, 2] 4).meshes = [] ∨
     (CreatePhysicsTriangleMesh ⟨true, true⟩ [] [] [0, 1, 2] 4).result = ([] : List Nat).length ∧
       (CreatePhysicsTriangleMesh ⟨true, true⟩ [] [] [0, 1, 2] 4).result ≠ SIZE_MAX ∧
       (CreatePhysicsTriangleMesh ⟨true, true⟩ [] [] [0, 1, 2] 4).meshes = [] ++ [4]) ∧
    ((CreateCharacterController (0, 0, 0) 125 20 true [7] 9).1 = SIZE_MAX ∧
       (CreateCharacterController (0, 0, 0) 125 20 true [7] 9).2 = [7] ∨
     (CreateCharacterController (0, 0, 0) 125 20 true [7] 9).1 = [7].length ∧
       (CreateCharacterController (0, 0, 0) 125 20 true [7] 9).1 ≠ SIZE_MAX ∧
       (CreateCharacterController (0, 0, 0) 125 20 true [7] 9).2 = [7] ++ [9]) :=
  c10_failure_atomic_sentinel_disjoint ⟨true, true⟩ [] [] [0, 1, 2] 4
    (0, 0, 0) 125 20 true [7] 9 (by decide) (by decide)

end SimplePhysx
